import Mathlib

/-!
Verification of the camera-control core of `rust-secure-video-stream`.

The definitions below are a shallow embedding of the Rust sources:
  * `src/crates/core/src/lib.rs`   — pixel formats, fourcc tags, frames, capabilities
  * `src/crates/capture/src/lib.rs` — the `CameraActor` state machine and its loop

The external device driver (rscam) is modelled as an oracle: every driver
call's outcome is an explicit parameter (`Except String _`).  Methods taking
`&mut self` are embedded as functions returning the post-state paired with
the `Result`; every error path returns the state exactly as the source left
it at the point of the early return.  The `unwrap` calls in the source are
modelled by `PanicOr`, whose `panicked` constructor marks a Rust panic.
-/

namespace VideoStream

/-- A 4-byte fourcc tag; each field is one ASCII byte (`[u8; 4]` in the source). -/
structure Fourcc where
  b0 : Nat
  b1 : Nat
  b2 : Nat
  b3 : Nat
deriving DecidableEq

/-- Embeds `PixelFormat` (core/src/lib.rs:16-23). -/
inductive PixelFormat where
  | MJPG
  | YUYV
  | RGB3
  | BGR3
  | YU12
  | YV12
deriving DecidableEq

/-- The tag `b"MJPG"` as ASCII bytes. -/
def mjpgTag : Fourcc := ⟨77, 74, 80, 71⟩

/-- The tag `b"YUYV"` as ASCII bytes. -/
def yuyvTag : Fourcc := ⟨89, 85, 89, 86⟩

/-- The tag `b"RGB3"` as ASCII bytes. -/
def rgb3Tag : Fourcc := ⟨82, 71, 66, 51⟩

/-- The tag `b"BGR3"` as ASCII bytes. -/
def bgr3Tag : Fourcc := ⟨66, 71, 82, 51⟩

/-- The tag `b"YU12"` as ASCII bytes. -/
def yu12Tag : Fourcc := ⟨89, 85, 49, 50⟩

/-- The tag `b"YV12"` as ASCII bytes. -/
def yv12Tag : Fourcc := ⟨89, 86, 49, 50⟩

/-- The closed set of recognized fourcc tags (core/src/lib.rs:29-34). -/
def knownTags : List Fourcc := [mjpgTag, yuyvTag, rgb3Tag, bgr3Tag, yu12Tag, yv12Tag]

/-- Embeds `PixelFormat::from_fourcc` (core/src/lib.rs:27-37): match on the six
known tags, any other tag falls through to the `YUYV` default. -/
def PixelFormat.from_fourcc (t : Fourcc) : PixelFormat :=
  if t = mjpgTag then PixelFormat.MJPG
  else if t = yuyvTag then PixelFormat.YUYV
  else if t = rgb3Tag then PixelFormat.RGB3
  else if t = bgr3Tag then PixelFormat.BGR3
  else if t = yu12Tag then PixelFormat.YU12
  else if t = yv12Tag then PixelFormat.YV12
  else PixelFormat.YUYV

/-- Embeds `PixelFormat::to_fourcc` (core/src/lib.rs:39-48). -/
def PixelFormat.to_fourcc : PixelFormat → Fourcc
  | PixelFormat.MJPG => mjpgTag
  | PixelFormat.YUYV => yuyvTag
  | PixelFormat.RGB3 => rgb3Tag
  | PixelFormat.BGR3 => bgr3Tag
  | PixelFormat.YU12 => yu12Tag
  | PixelFormat.YV12 => yv12Tag

/-- Embeds `Resolution` (core/src/lib.rs:51-54); `u32` fields carried as `Nat`
(no arithmetic is ever performed on them). -/
structure Resolution where
  width : Nat
  height : Nat
deriving DecidableEq

/-- Embeds `FormatCapability` (core/src/lib.rs:57-60). -/
structure FormatCapability where
  format : PixelFormat
  resolutions : List Resolution
deriving DecidableEq

/-- Embeds `CameraCapabilities` (core/src/lib.rs:63-65). -/
structure CameraCapabilities where
  formats : List FormatCapability
deriving DecidableEq

/-- Embeds `Frame` (core/src/lib.rs:6-13); the `SystemTime` timestamp is an
abstract `Nat` instant supplied by the oracle. -/
structure Frame where
  format : PixelFormat
  width : Nat
  height : Nat
  timestamp : Nat
  sequence : Nat
  data : List Nat
deriving DecidableEq

/-- C9: every tag in the closed set round-trips through
`from_fourcc`/`to_fourcc`, and every tag outside it decodes to the `YUYV`
default. -/
theorem fourcc_roundtrip (t : Fourcc) :
    (t ∈ knownTags → PixelFormat.to_fourcc (PixelFormat.from_fourcc t) = t)
    ∧ (t ∉ knownTags → PixelFormat.from_fourcc t = PixelFormat.YUYV) := by
  constructor
  · intro ht
    simp only [knownTags, List.mem_cons, List.not_mem_nil, or_false] at ht
    rcases ht with h | h | h | h | h | h <;>
      simp [PixelFormat.from_fourcc, PixelFormat.to_fourcc, h,
        mjpgTag, yuyvTag, rgb3Tag, bgr3Tag, yu12Tag, yv12Tag]
  · intro ht
    simp only [knownTags, List.mem_cons, List.not_mem_nil, or_false, not_or] at ht
    obtain ⟨h1, h2, h3, h4, h5, h6⟩ := ht
    simp [PixelFormat.from_fourcc, h1, h2, h3, h4, h5, h6]

/-- Witness for C9: the `MJPG` tag round-trips, and the tag `"XXXX"` decodes
to `YUYV`. -/
theorem fourcc_roundtrip_witness :
    PixelFormat.to_fourcc (PixelFormat.from_fourcc mjpgTag) = mjpgTag
    ∧ PixelFormat.from_fourcc ⟨88, 88, 88, 88⟩ = PixelFormat.YUYV :=
  ⟨(fourcc_roundtrip mjpgTag).1 (by decide),
   (fourcc_roundtrip ⟨88, 88, 88, 88⟩).2 (by decide)⟩

/-! ## The camera actor (capture/src/lib.rs) -/

/-- Embeds `CameraError` (capture/src/lib.rs:13-38). -/
inductive CameraError where
  | InterfaceNotFound
  | CapabilitiesNotDiscovered
  | UnsupportedFormat (format : PixelFormat)
  | UnsupportedResolution (width height : Nat) (format : PixelFormat)
  | NotConfigured
  | AlreadyStreaming
  | NotStreaming
  | IoError (msg : String)
deriving DecidableEq

/-- Embeds `CameraState` (capture/src/lib.rs:100-105). -/
inductive CameraState where
  | Idle
  | Configured
  | Streaming
deriving DecidableEq

/-- Embeds `CaptureConfig` (capture/src/lib.rs:108-118). -/
structure CaptureConfig where
  format : PixelFormat
  resolution : Resolution
  fps : Nat
deriving DecidableEq

/-- Embeds `CameraActor` (capture/src/lib.rs:120-127); the opaque rscam
`Camera` handle is an abstract `Nat` identity supplied by the `open` oracle. -/
structure CameraActor where
  camera : Nat
  name : String
  state : CameraState
  capabilities : Option CameraCapabilities
  config : Option CaptureConfig
  frame_sequence : Nat
deriving DecidableEq

/-- The outcome of a Rust expression that may panic (`unwrap` on `None`). -/
inductive PanicOr (α : Type) where
  | panicked
  | value (a : α)
deriving DecidableEq

/-- Embeds rscam's `ResolutionInfo` as used at capture/src/lib.rs:213-224:
either a discrete list of (width, height) pairs or some other shape
(`Stepwise`), which the source maps to an empty resolution list. -/
inductive ResolutionInfo where
  | Discretes (sizes : List (Nat × Nat))
  | Stepwise
deriving DecidableEq

/-- Embeds the rscam `Frame` returned by `capture` as used at
capture/src/lib.rs:275-282: a fourcc tag, a (width, height) pair, and bytes. -/
structure RawFrame where
  format : Fourcc
  resolution : Nat × Nat
  data : List Nat
deriving DecidableEq

/-- Embeds the successful branch of `CameraActor::new`
(capture/src/lib.rs:177-189): fresh handle, `Idle`, nothing discovered or
configured, sequence counter 0. -/
def freshActor (handle : Nat) (device_path : String) : CameraActor :=
  { camera := handle
    name := device_path
    state := CameraState.Idle
    capabilities := none
    config := none
    frame_sequence := 0 }

/-- Embeds `CameraActor::stop_streaming` (capture/src/lib.rs:307-313).
`drvStop` is the outcome of the driver `stop` call.  Note: the source's
success branch returns `Ok(())` without assigning `self.state`, so the
post-state is returned unchanged here as well. -/
def stop_streaming (a : CameraActor) (drvStop : Except String Unit) :
    CameraActor × Except CameraError Unit :=
  if a.state = CameraState.Streaming then
    match drvStop with
    | Except.error e => (a, Except.error (CameraError.IoError ("Failed to stop camera: " ++ e)))
    | Except.ok _ => (a, Except.ok ())
  else (a, Except.error CameraError.NotStreaming)

/-- Embeds `CameraActor::set_interface` (capture/src/lib.rs:191-204).
`drvStop` is the outcome of the driver `stop` inside the forced
`stop_streaming` (used only when streaming); `drvOpen` is the outcome of
`Camera::new` on the new path.  The `?` on the forced stop propagates its
error; the success branch resets state, capabilities and the counter but
leaves `config` untouched, exactly as the source does. -/
def set_interface (a : CameraActor) (device_path : String)
    (drvStop : Except String Unit) (drvOpen : Except String Nat) :
    CameraActor × Except CameraError Unit :=
  match (if a.state = CameraState.Streaming
         then stop_streaming a drvStop
         else (a, Except.ok ())) with
  | (a1, Except.error e) => (a1, Except.error e)
  | (a1, Except.ok _) =>
    match drvOpen with
    | Except.error e => (a1, Except.error (CameraError.IoError ("Failed to open: " ++ e)))
    | Except.ok h =>
      ({ a1 with
          camera := h
          name := device_path
          state := CameraState.Idle
          capabilities := none
          frame_sequence := 0 }, Except.ok ())

/-- Embeds `CameraActor::discover_capabilities` (capture/src/lib.rs:206-235).
`drvFormats` is the oracle for the driver's format iterator, each entry
carrying the per-format outcome of `resolutions`; failed entries are skipped,
a non-discrete resolution shape yields an empty list, and the result replaces
any previously stored capabilities. -/
def discover_capabilities (a : CameraActor)
    (drvFormats : List (Except String (Fourcc × Except String ResolutionInfo))) : CameraActor :=
  let formats := drvFormats.foldl
    (fun acc entry =>
      match entry with
      | Except.error _ => acc
      | Except.ok (fourcc, resOutcome) =>
        match resOutcome with
        | Except.error _ => acc
        | Except.ok info =>
          let resolutions := match info with
            | ResolutionInfo.Discretes sizes =>
                sizes.map (fun wh => Resolution.mk wh.1 wh.2)
            | ResolutionInfo.Stepwise => []
          acc ++ [FormatCapability.mk (PixelFormat.from_fourcc fourcc) resolutions])
    []
  { a with capabilities := some (CameraCapabilities.mk formats) }

/-- Embeds `CameraActor::set_configuration` (capture/src/lib.rs:237-255):
find the first capability entry for the requested format, then the requested
resolution inside that entry; on success store the config and set state to
`Configured`.  There is no check of the current state. -/
def set_configuration (a : CameraActor) (width height fps : Nat) (format : PixelFormat) :
    CameraActor × Except CameraError Unit :=
  match a.capabilities with
  | some capabilities =>
    match capabilities.formats.find? (fun cap => decide (cap.format = format)) with
    | none => (a, Except.error (CameraError.UnsupportedFormat format))
    | some pixel_format =>
      match pixel_format.resolutions.find?
          (fun res => decide (res.width = width) && decide (res.height = height)) with
      | none => (a, Except.error (CameraError.UnsupportedResolution width height format))
      | some resolution =>
        ({ a with
            config := some { format := format, resolution := resolution, fps := fps }
            state := CameraState.Configured }, Except.ok ())
  | none => (a, Except.error CameraError.CapabilitiesNotDiscovered)

/-- Embeds `CameraActor::get_configuration` (capture/src/lib.rs:257-263);
the `unwrap` on `self.config` is the `panicked` case. -/
def get_configuration (a : CameraActor) : PanicOr (Except CameraError CaptureConfig) :=
  if a.state = CameraState.Configured ∨ a.state = CameraState.Streaming then
    match a.config with
    | some config => PanicOr.value (Except.ok config)
    | none => PanicOr.panicked
  else PanicOr.value (Except.error CameraError.NotConfigured)

/-- The modulus of 64-bit `usize` arithmetic.  `frame_sequence` is `usize` in
the source, and `self.frame_sequence += 1` wraps at this bound in release
builds (the semantics modelled here; debug builds would panic instead). -/
def USIZE_MOD : Nat := 2 ^ 64

/-- Embeds `CameraActor::capture_frame` (capture/src/lib.rs:265-285).
`drvCapture` is the outcome of the blocking driver `capture`; `now` is the
`SystemTime::now()` instant.  The `usize` counter increments modulo
`USIZE_MOD` only after a successful capture, and the frame carries the
incremented value. -/
def capture_frame (a : CameraActor) (drvCapture : Except String RawFrame) (now : Nat) :
    CameraActor × Except CameraError Frame :=
  if a.state ≠ CameraState.Streaming then
    (a, Except.error CameraError.NotStreaming)
  else
    match drvCapture with
    | Except.error e =>
        (a, Except.error (CameraError.IoError ("Failed to capture frame: " ++ e)))
    | Except.ok captured =>
        ({ a with frame_sequence := (a.frame_sequence + 1) % USIZE_MOD },
          Except.ok
            { format := PixelFormat.from_fourcc captured.format
              width := captured.resolution.1
              height := captured.resolution.2
              timestamp := now
              sequence := (a.frame_sequence + 1) % USIZE_MOD
              data := captured.data })

/-- Embeds `CameraActor::start_streaming` (capture/src/lib.rs:287-305).
The `unwrap` on `self.config` is the `panicked` case; `drvStart` is the
outcome of the driver `start` call on the config translated to rscam's
shape. -/
def start_streaming (a : CameraActor) (drvStart : Except String Unit) :
    PanicOr (CameraActor × Except CameraError Unit) :=
  if a.state = CameraState.Configured then
    match a.config with
    | none => PanicOr.panicked
    | some _ =>
      match drvStart with
      | Except.error e =>
          PanicOr.value
            (a, Except.error (CameraError.IoError ("Failed to configure camera: " ++ e)))
      | Except.ok _ =>
          PanicOr.value ({ a with state := CameraState.Streaming }, Except.ok ())
  else if a.state = CameraState.Streaming then
    PanicOr.value (a, Except.error CameraError.AlreadyStreaming)
  else
    PanicOr.value (a, Except.error CameraError.NotConfigured)

/-! ## The actor loop (capture/src/lib.rs:437-530) -/

/-- Embeds `CameraCommand` (capture/src/lib.rs:44-65). -/
inductive CameraCommand where
  | SetInterface (device_path : String)
  | DiscoverCapabilities
  | GetConfiguration
  | SetConfiguration (width height fps : Nat) (format : PixelFormat)
  | StartStreaming
  | StopStreaming
  | Shutdown
deriving DecidableEq

/-- Embeds `CameraEvent` (capture/src/lib.rs:70-98). -/
inductive CameraEvent where
  | InterfaceChanged
  | CapabilitiesDiscovered (caps : CameraCapabilities)
  | ConfigurationRetrieved (config : CaptureConfig)
  | Configured
  | FrameCaptured (frame : Frame)
  | StreamingStarted
  | StreamingStopped
  | ShutdownComplete
  | Error (e : CameraError)
deriving DecidableEq

/-- The driver oracle for one loop iteration: the outcome each driver call
would produce if made during this iteration, plus the current instant. -/
structure DriverOutcome where
  stopResult : Except String Unit
  openResult : Except String Nat
  startResult : Except String Unit
  captureResult : Except String RawFrame
  formatsResult : List (Except String (Fourcc × Except String ResolutionInfo))
  now : Nat

/-- Embeds the command dispatch of `camera_actor_loop`
(capture/src/lib.rs:441-509): the post-state, the events published for this
command, and whether the loop breaks (`Shutdown`). -/
def handle_command (a : CameraActor) (cmd : CameraCommand) (drv : DriverOutcome) :
    PanicOr (CameraActor × List CameraEvent × Bool) :=
  match cmd with
  | CameraCommand.SetInterface p =>
    match set_interface a p drv.stopResult drv.openResult with
    | (a1, Except.ok _) => PanicOr.value (a1, [CameraEvent.InterfaceChanged], false)
    | (a1, Except.error e) => PanicOr.value (a1, [CameraEvent.Error e], false)
  | CameraCommand.DiscoverCapabilities =>
    let a1 := discover_capabilities a drv.formatsResult
    match a1.capabilities with
    | some caps => PanicOr.value (a1, [CameraEvent.CapabilitiesDiscovered caps], false)
    | none => PanicOr.value (a1, [], false)
  | CameraCommand.GetConfiguration =>
    match get_configuration a with
    | PanicOr.panicked => PanicOr.panicked
    | PanicOr.value (Except.ok config) =>
        PanicOr.value (a, [CameraEvent.ConfigurationRetrieved config], false)
    | PanicOr.value (Except.error e) => PanicOr.value (a, [CameraEvent.Error e], false)
  | CameraCommand.SetConfiguration w h fps fmt =>
    match set_configuration a w h fps fmt with
    | (a1, Except.ok _) => PanicOr.value (a1, [CameraEvent.Configured], false)
    | (a1, Except.error e) => PanicOr.value (a1, [CameraEvent.Error e], false)
  | CameraCommand.StartStreaming =>
    match start_streaming a drv.startResult with
    | PanicOr.panicked => PanicOr.panicked
    | PanicOr.value (a1, Except.ok _) =>
        PanicOr.value (a1, [CameraEvent.StreamingStarted], false)
    | PanicOr.value (a1, Except.error e) =>
        PanicOr.value (a1, [CameraEvent.Error e], false)
  | CameraCommand.StopStreaming =>
    match stop_streaming a drv.stopResult with
    | (a1, Except.ok _) => PanicOr.value (a1, [CameraEvent.StreamingStopped], false)
    | (a1, Except.error e) => PanicOr.value (a1, [CameraEvent.Error e], false)
  | CameraCommand.Shutdown =>
    let a1 := if a.state = CameraState.Streaming
              then (stop_streaming a drv.stopResult).1 else a
    PanicOr.value (a1, [CameraEvent.ShutdownComplete], true)

/-- One iteration of `camera_actor_loop` (capture/src/lib.rs:438-529):
handle the pending command when one is queued (`cmd = some c`; `none` is the
`TryRecvError::Empty` branch), then — unless the loop broke — if the state is
`Streaming`, attempt one capture, publishing `FrameCaptured` on success and
nothing on failure (the source's `if let Ok(frame)` discards the error). -/
def loop_iter (a : CameraActor) (cmd : Option CameraCommand) (drv : DriverOutcome) :
    PanicOr (CameraActor × List CameraEvent × Bool) :=
  match (match cmd with
         | some c => handle_command a c drv
         | none => PanicOr.value (a, ([], false))) with
  | PanicOr.panicked => PanicOr.panicked
  | PanicOr.value (a1, evs, brk) =>
    if brk then PanicOr.value (a1, evs, true)
    else if a1.state = CameraState.Streaming then
      match capture_frame a1 drv.captureResult drv.now with
      | (a2, Except.ok fr) =>
          PanicOr.value (a2, evs ++ [CameraEvent.FrameCaptured fr], false)
      | (a2, Except.error _) => PanicOr.value (a2, evs, false)
    else PanicOr.value (a1, evs, false)

/-! ## Traces of actor operations -/

/-- One actor operation together with the driver outcomes it consumes;
used to reason about arbitrary sequences of operations on one actor. -/
inductive ActorOp where
  | opSetInterface (device_path : String)
      (drvStop : Except String Unit) (drvOpen : Except String Nat)
  | opDiscover (drvFormats : List (Except String (Fourcc × Except String ResolutionInfo)))
  | opGetConfiguration
  | opSetConfiguration (width height fps : Nat) (format : PixelFormat)
  | opStartStreaming (drvStart : Except String Unit)
  | opStopStreaming (drvStop : Except String Unit)
  | opCaptureFrame (drvCapture : Except String RawFrame) (now : Nat)

/-- Whether an operation is an interface change. -/
def isInterfaceChange : ActorOp → Bool
  | ActorOp.opSetInterface _ _ _ => true
  | _ => false

/-- Apply one operation to the actor: the post-state (unchanged when the
operation fails, exactly as the embedded methods return it) and the frame a
successful capture produced, or `panicked` when the operation panics. -/
def applyOp (a : CameraActor) (op : ActorOp) : PanicOr (CameraActor × Option Frame) :=
  match op with
  | ActorOp.opSetInterface p ds dOpen =>
      PanicOr.value ((set_interface a p ds dOpen).1, none)
  | ActorOp.opDiscover fmts =>
      PanicOr.value (discover_capabilities a fmts, none)
  | ActorOp.opGetConfiguration =>
      match get_configuration a with
      | PanicOr.panicked => PanicOr.panicked
      | PanicOr.value _ => PanicOr.value (a, none)
  | ActorOp.opSetConfiguration w h fps fmt =>
      PanicOr.value ((set_configuration a w h fps fmt).1, none)
  | ActorOp.opStartStreaming ds =>
      match start_streaming a ds with
      | PanicOr.panicked => PanicOr.panicked
      | PanicOr.value (a1, _) => PanicOr.value (a1, none)
  | ActorOp.opStopStreaming ds =>
      PanicOr.value ((stop_streaming a ds).1, none)
  | ActorOp.opCaptureFrame dc now =>
      match capture_frame a dc now with
      | (a1, Except.ok fr) => PanicOr.value (a1, some fr)
      | (a1, Except.error _) => PanicOr.value (a1, none)

/-- Run a whole trace of operations, collecting the captured frames in
capture order; `panicked` as soon as any operation panics. -/
def runOps (a : CameraActor) : List ActorOp → PanicOr (CameraActor × List Frame)
  | [] => PanicOr.value (a, [])
  | op :: ops =>
    match applyOp a op with
    | PanicOr.panicked => PanicOr.panicked
    | PanicOr.value (a1, f) =>
      match runOps a1 ops with
      | PanicOr.panicked => PanicOr.panicked
      | PanicOr.value (a2, frames) => PanicOr.value (a2, f.toList ++ frames)

/-- The actor states reachable from a freshly created actor by any sequence
of non-panicking operations. -/
inductive Reachable : CameraActor → Prop where
  | fresh (handle : Nat) (device_path : String) : Reachable (freshActor handle device_path)
  | step {a a1 : CameraActor} {op : ActorOp} {f : Option Frame} :
      Reachable a → applyOp a op = PanicOr.value (a1, f) → Reachable a1

/-! ## Helper lemmas -/

/-- The function `stop_streaming` never changes the actor: the source's success branch
returns without assigning any field. -/
theorem stop_streaming_fst (a : CameraActor) (ds : Except String Unit) :
    (stop_streaming a ds).1 = a := by
  unfold stop_streaming
  split
  · cases ds <;> rfl
  · rfl

/-- The function `set_interface` either leaves the actor unchanged (some step failed) or
installs the new handle with state `Idle`, capabilities cleared, counter 0 —
and `config` untouched. -/
theorem set_interface_fst (a : CameraActor) (p : String) (ds : Except String Unit)
    (dOpen : Except String Nat) :
    (set_interface a p ds dOpen).1 = a
    ∨ ∃ hnd, (set_interface a p ds dOpen).1 =
        { a with
          camera := hnd
          name := p
          state := CameraState.Idle
          capabilities := none
          frame_sequence := 0 } := by
  have ha1 : (if a.state = CameraState.Streaming
              then stop_streaming a ds else (a, Except.ok ())).1 = a := by
    split
    · exact stop_streaming_fst a ds
    · rfl
  rcases hif : (if a.state = CameraState.Streaming
                then stop_streaming a ds else (a, Except.ok ())) with ⟨a1, r⟩
  rw [hif] at ha1
  unfold set_interface
  rw [hif]
  cases r with
  | error e => left; exact ha1
  | ok u =>
    cases dOpen with
    | error e => left; exact ha1
    | ok hnd =>
      right
      refine ⟨hnd, ?_⟩
      simp only
      rw [show a1 = a from ha1]

/-- Case analysis on `set_configuration`: either it fails and the actor is
unchanged, or capabilities were present, the requested format and resolution
were found, and the actor now stores the config with state `Configured`. -/
theorem set_configuration_cases (a : CameraActor) (w ht fps : Nat) (fmt : PixelFormat) :
    ((set_configuration a w ht fps fmt).1 = a
      ∧ ∃ e, (set_configuration a w ht fps fmt).2 = Except.error e)
    ∨ (∃ caps r, a.capabilities = some caps
        ∧ (set_configuration a w ht fps fmt).1 =
            { a with
              config := some { format := fmt, resolution := r, fps := fps }
              state := CameraState.Configured }
        ∧ (set_configuration a w ht fps fmt).2 = Except.ok ()
        ∧ r.width = w ∧ r.height = ht) := by
  unfold set_configuration
  split
  · split
    · exact Or.inl ⟨rfl, _, rfl⟩
    · split
      · exact Or.inl ⟨rfl, _, rfl⟩
      · rename_i x1 caps hcaps x2 fc hf x3 r hr
        have hpred := List.find?_some hr
        simp only [Bool.and_eq_true, decide_eq_true_eq] at hpred
        exact Or.inr ⟨caps, r, hcaps, rfl, rfl, hpred.1, hpred.2⟩
  · exact Or.inl ⟨rfl, _, rfl⟩

/-- Case analysis on `capture_frame`: either it fails and the actor is
unchanged, or the actor was streaming, the counter advances by one modulo the
usize bound and the returned frame carries the advanced value. -/
theorem capture_frame_cases (a : CameraActor) (dc : Except String RawFrame) (now : Nat) :
    ((capture_frame a dc now).1 = a
      ∧ ∃ e, (capture_frame a dc now).2 = Except.error e)
    ∨ (a.state = CameraState.Streaming
       ∧ (capture_frame a dc now).1 = { a with frame_sequence := (a.frame_sequence + 1) % USIZE_MOD }
       ∧ ∃ fr, (capture_frame a dc now).2 = Except.ok fr
           ∧ fr.sequence = (a.frame_sequence + 1) % USIZE_MOD) := by
  unfold capture_frame
  by_cases hs : a.state ≠ CameraState.Streaming
  · rw [if_pos hs]
    exact Or.inl ⟨rfl, _, rfl⟩
  · rw [if_neg hs]
    rw [not_not] at hs
    cases dc with
    | error e => exact Or.inl ⟨rfl, _, rfl⟩
    | ok captured => exact Or.inr ⟨hs, rfl, _, rfl, rfl⟩

/-- Case analysis on `start_streaming`: it panics only from `Configured` with
no stored config; otherwise it fails leaving the actor unchanged, or the
actor was `Configured` and only the state advances to `Streaming`. -/
theorem start_streaming_cases (a : CameraActor) (ds : Except String Unit) :
    (start_streaming a ds = PanicOr.panicked
      ∧ a.state = CameraState.Configured ∧ a.config = none)
    ∨ (∃ e, start_streaming a ds = PanicOr.value (a, Except.error e))
    ∨ (a.state = CameraState.Configured
       ∧ start_streaming a ds =
           PanicOr.value ({ a with state := CameraState.Streaming }, Except.ok ())) := by
  unfold start_streaming
  by_cases h1 : a.state = CameraState.Configured
  · rw [if_pos h1]
    cases hc : a.config with
    | none => exact Or.inl ⟨rfl, h1, rfl⟩
    | some c =>
      cases ds with
      | error e => exact Or.inr (Or.inl ⟨_, rfl⟩)
      | ok u => exact Or.inr (Or.inr ⟨h1, rfl⟩)
  · rw [if_neg h1]
    by_cases h2 : a.state = CameraState.Streaming
    · rw [if_pos h2]; exact Or.inr (Or.inl ⟨_, rfl⟩)
    · rw [if_neg h2]; exact Or.inr (Or.inl ⟨_, rfl⟩)

/-- Case analysis on `get_configuration`: it panics exactly when the state is
`Configured` or `Streaming` with no stored config; otherwise it returns the
stored config, or `NotConfigured` from any other state. -/
theorem get_configuration_cases (a : CameraActor) :
    (a.config = none ∧ (a.state = CameraState.Configured ∨ a.state = CameraState.Streaming)
      ∧ get_configuration a = PanicOr.panicked)
    ∨ (∃ cfg, a.config = some cfg
        ∧ (a.state = CameraState.Configured ∨ a.state = CameraState.Streaming)
        ∧ get_configuration a = PanicOr.value (Except.ok cfg))
    ∨ (¬(a.state = CameraState.Configured ∨ a.state = CameraState.Streaming)
        ∧ get_configuration a = PanicOr.value (Except.error CameraError.NotConfigured)) := by
  unfold get_configuration
  by_cases hs : a.state = CameraState.Configured ∨ a.state = CameraState.Streaming
  · rw [if_pos hs]
    cases hc : a.config with
    | none => exact Or.inl ⟨rfl, hs, rfl⟩
    | some cfg => exact Or.inr (Or.inl ⟨cfg, rfl, hs, rfl⟩)
  · rw [if_neg hs]
    exact Or.inr (Or.inr ⟨hs, rfl⟩)

/-- The two state-machine invariants the claims rely on: the stored config is
present whenever the state is `Configured` or `Streaming`, and while
capabilities are absent the state is `Idle`. -/
def ActorInv (a : CameraActor) : Prop :=
  ((a.state = CameraState.Configured ∨ a.state = CameraState.Streaming) →
    a.config.isSome = true)
  ∧ (a.capabilities = none → a.state = CameraState.Idle)

/-- Every operation preserves `ActorInv`. -/
theorem applyOp_inv {a a1 : CameraActor} {op : ActorOp} {f : Option Frame}
    (hinv : ActorInv a) (h : applyOp a op = PanicOr.value (a1, f)) : ActorInv a1 := by
  obtain ⟨hcfg, hcaps⟩ := hinv
  cases op with
  | opSetInterface p ds dOpen =>
    simp only [applyOp, PanicOr.value.injEq, Prod.mk.injEq] at h
    obtain ⟨h1, -⟩ := h
    rcases set_interface_fst a p ds dOpen with hfst | ⟨hnd, hfst⟩ <;>
      rw [h1] at hfst <;> subst hfst
    · exact ⟨hcfg, hcaps⟩
    · exact ⟨by intro hc; rcases hc with hc | hc <;> exact (CameraState.noConfusion hc),
        fun _ => rfl⟩
  | opDiscover fmts =>
    simp only [applyOp, PanicOr.value.injEq, Prod.mk.injEq] at h
    obtain ⟨h1, -⟩ := h
    subst h1
    exact ⟨hcfg, by intro hc; exact (Option.noConfusion hc)⟩
  | opGetConfiguration =>
    simp only [applyOp] at h
    cases hg : get_configuration a <;> rw [hg] at h
    · exact (PanicOr.noConfusion h)
    · simp only [PanicOr.value.injEq, Prod.mk.injEq] at h
      obtain ⟨h1, -⟩ := h
      subst h1
      exact ⟨hcfg, hcaps⟩
  | opSetConfiguration w ht fps fmt =>
    simp only [applyOp, PanicOr.value.injEq, Prod.mk.injEq] at h
    obtain ⟨h1, -⟩ := h
    rcases set_configuration_cases a w ht fps fmt with ⟨hfst, -⟩ | ⟨caps, r, hsome, hfst, -, -, -⟩ <;>
      rw [h1] at hfst <;> subst hfst
    · exact ⟨hcfg, hcaps⟩
    · constructor
      · intro _; rfl
      · intro hc
        simp only at hc
        rw [hsome] at hc
        exact (Option.noConfusion hc)
  | opStartStreaming ds =>
    simp only [applyOp] at h
    rcases start_streaming_cases a ds with ⟨hpan, -, -⟩ | ⟨e, hval⟩ | ⟨hconf, hval⟩
    · rw [hpan] at h
      exact (PanicOr.noConfusion h)
    · rw [hval] at h
      simp only [PanicOr.value.injEq, Prod.mk.injEq] at h
      obtain ⟨h1, -⟩ := h
      subst h1
      exact ⟨hcfg, hcaps⟩
    · rw [hval] at h
      simp only [PanicOr.value.injEq, Prod.mk.injEq] at h
      obtain ⟨h1, -⟩ := h
      subst h1
      constructor
      · intro _
        exact hcfg (Or.inl hconf)
      · intro hc
        have hc1 : a.capabilities = none := hc
        have := hcaps hc1
        rw [hconf] at this
        exact (CameraState.noConfusion this)
  | opStopStreaming ds =>
    simp only [applyOp, PanicOr.value.injEq, Prod.mk.injEq] at h
    obtain ⟨h1, -⟩ := h
    rw [stop_streaming_fst a ds] at h1
    subst h1
    exact ⟨hcfg, hcaps⟩
  | opCaptureFrame dc now =>
    simp only [applyOp] at h
    rcases hcf : capture_frame a dc now with ⟨a2, r⟩
    rw [hcf] at h
    rcases capture_frame_cases a dc now with ⟨hfst, e, hsnd⟩ | ⟨hstr, hfst, fr, hsnd, -⟩ <;>
      rw [hcf] at hfst hsnd <;> simp only at hfst hsnd <;> subst hfst <;> subst hsnd
    · simp only [PanicOr.value.injEq, Prod.mk.injEq] at h
      obtain ⟨h1, -⟩ := h
      subst h1
      exact ⟨hcfg, hcaps⟩
    · simp only [PanicOr.value.injEq, Prod.mk.injEq] at h
      obtain ⟨h1, -⟩ := h
      subst h1
      exact ⟨fun _ => hcfg (Or.inr hstr), by intro hc; simp only at hc; exact absurd (hcaps hc) (by rw [hstr]; exact fun hx => CameraState.noConfusion hx)⟩

/-- Every reachable actor state satisfies `ActorInv`; a fresh actor does
trivially. -/
theorem reachable_inv {a : CameraActor} (ha : Reachable a) : ActorInv a := by
  induction ha with
  | fresh handle device_path =>
    exact ⟨by intro hc; rcases hc with hc | hc <;> exact (CameraState.noConfusion hc),
      fun _ => rfl⟩
  | step _ hstep ih => exact applyOp_inv ih hstep

/-- Frame-sequence bookkeeping of a single operation that is not an interface
change: no capture leaves the counter alone; a successful capture advances it
by one modulo the usize bound and stamps the frame with the advanced value. -/
theorem applyOp_frame_sequence {a a1 : CameraActor} {op : ActorOp} {f : Option Frame}
    (hop : isInterfaceChange op = false)
    (h : applyOp a op = PanicOr.value (a1, f)) :
    (f = none → a1.frame_sequence = a.frame_sequence)
    ∧ (∀ fr, f = some fr →
        a1.frame_sequence = (a.frame_sequence + 1) % USIZE_MOD
        ∧ fr.sequence = (a.frame_sequence + 1) % USIZE_MOD) := by
  cases op with
  | opSetInterface p ds dOpen => exact (Bool.noConfusion hop)
  | opDiscover fmts =>
    simp only [applyOp, PanicOr.value.injEq, Prod.mk.injEq] at h
    obtain ⟨h1, h2⟩ := h
    subst h1
    exact ⟨fun _ => rfl, fun fr hfr => Option.noConfusion (h2.trans hfr)⟩
  | opGetConfiguration =>
    simp only [applyOp] at h
    cases hg : get_configuration a <;> rw [hg] at h
    · exact (PanicOr.noConfusion h)
    · simp only [PanicOr.value.injEq, Prod.mk.injEq] at h
      obtain ⟨h1, h2⟩ := h
      subst h1
      exact ⟨fun _ => rfl, fun fr hfr => Option.noConfusion (h2.trans hfr)⟩
  | opSetConfiguration w ht fps fmt =>
    simp only [applyOp, PanicOr.value.injEq, Prod.mk.injEq] at h
    obtain ⟨h1, h2⟩ := h
    refine ⟨fun _ => ?_, fun fr hfr => Option.noConfusion (h2.trans hfr)⟩
    rcases set_configuration_cases a w ht fps fmt with ⟨hfst, -⟩ | ⟨caps, r, -, hfst, -, -, -⟩ <;>
      rw [h1] at hfst <;> subst hfst <;> rfl
  | opStartStreaming ds =>
    simp only [applyOp] at h
    rcases start_streaming_cases a ds with ⟨hpan, -, -⟩ | ⟨e, hval⟩ | ⟨hconf, hval⟩
    · rw [hpan] at h
      exact (PanicOr.noConfusion h)
    · rw [hval] at h
      simp only [PanicOr.value.injEq, Prod.mk.injEq] at h
      obtain ⟨h1, h2⟩ := h
      subst h1
      exact ⟨fun _ => rfl, fun fr hfr => Option.noConfusion (h2.trans hfr)⟩
    · rw [hval] at h
      simp only [PanicOr.value.injEq, Prod.mk.injEq] at h
      obtain ⟨h1, h2⟩ := h
      subst h1
      exact ⟨fun _ => rfl, fun fr hfr => Option.noConfusion (h2.trans hfr)⟩
  | opStopStreaming ds =>
    simp only [applyOp, PanicOr.value.injEq, Prod.mk.injEq] at h
    obtain ⟨h1, h2⟩ := h
    rw [stop_streaming_fst a ds] at h1
    subst h1
    exact ⟨fun _ => rfl, fun fr hfr => Option.noConfusion (h2.trans hfr)⟩
  | opCaptureFrame dc now =>
    simp only [applyOp] at h
    rcases hcf : capture_frame a dc now with ⟨a2, r⟩
    rw [hcf] at h
    cases r with
    | error e =>
      simp only [PanicOr.value.injEq, Prod.mk.injEq] at h
      obtain ⟨h1, h2⟩ := h
      rcases capture_frame_cases a dc now with ⟨hfst, -⟩ | ⟨-, -, fr2, hsnd, -⟩
      · rw [hcf] at hfst
        have ha2 : a2 = a := hfst
        subst h1
        subst ha2
        exact ⟨fun _ => rfl, fun fr hfr => Option.noConfusion (h2.trans hfr)⟩
      · rw [hcf] at hsnd
        exact (Except.noConfusion hsnd)
    | ok fr =>
      simp only [PanicOr.value.injEq, Prod.mk.injEq] at h
      obtain ⟨h1, h2⟩ := h
      rcases capture_frame_cases a dc now with ⟨-, e2, hsnd⟩ | ⟨-, hfst, fr2, hsnd, hseq⟩
      · rw [hcf] at hsnd
        exact (Except.noConfusion hsnd)
      · rw [hcf] at hfst hsnd
        have ha2 : a2 = { a with frame_sequence := (a.frame_sequence + 1) % USIZE_MOD } := hfst
        have hfr2 : fr = fr2 := by injection hsnd
        subst h1
        subst ha2
        constructor
        · intro hn
          rw [← h2] at hn
          exact (Option.noConfusion hn)
        · intro fr3 hfr3
          rw [← h2] at hfr3
          have : fr = fr3 := by injection hfr3
          subst this
          exact ⟨rfl, by rw [hfr2]; exact hseq⟩

/-- Over any trace without an interface change whose captures stay below the
usize wrap bound, the captured frames carry the consecutive sequence numbers
continuing from the starting counter, and the counter ends advanced by
exactly the number of captures. -/
theorem runOps_frame_sequence {ops : List ActorOp} :
    ∀ {a a2 : CameraActor} {frames : List Frame},
    (∀ op ∈ ops, isInterfaceChange op = false) →
    a.frame_sequence + frames.length < USIZE_MOD →
    runOps a ops = PanicOr.value (a2, frames) →
    frames.map Frame.sequence = List.range' (a.frame_sequence + 1) frames.length
    ∧ a2.frame_sequence = a.frame_sequence + frames.length := by
  induction ops with
  | nil =>
    intro a a2 frames hops hlen h
    simp only [runOps, PanicOr.value.injEq, Prod.mk.injEq] at h
    obtain ⟨h1, h2⟩ := h
    subst h1
    subst h2
    exact ⟨rfl, rfl⟩
  | cons op ops ih =>
    intro a a2 frames hops hlen h
    simp only [runOps] at h
    cases hap : applyOp a op with
    | panicked =>
      rw [hap] at h
      exact (PanicOr.noConfusion h)
    | value pr =>
      obtain ⟨a1, f⟩ := pr
      rw [hap] at h
      dsimp only at h
      cases hrun : runOps a1 ops with
      | panicked =>
        rw [hrun] at h
        exact (PanicOr.noConfusion h)
      | value pr2 =>
        obtain ⟨a3, frames2⟩ := pr2
        rw [hrun] at h
        simp only [PanicOr.value.injEq, Prod.mk.injEq] at h
        obtain ⟨h1, h2⟩ := h
        subst h1
        have hseq := applyOp_frame_sequence (hops op (List.mem_cons_self op ops)) hap
        cases f with
        | none =>
          simp only [Option.toList, List.nil_append] at h2
          subst h2
          have hfs : a1.frame_sequence = a.frame_sequence := hseq.1 rfl
          have ihh := ih (fun o ho => hops o (List.mem_cons_of_mem op ho))
            (by rw [hfs]; exact hlen) hrun
          rw [hfs] at ihh
          exact ihh
        | some fr =>
          simp only [Option.toList, List.singleton_append] at h2
          subst h2
          simp only [List.length_cons] at hlen
          obtain ⟨hfs, hfrseq⟩ := hseq.2 fr rfl
          have hlt : a.frame_sequence + 1 < USIZE_MOD := by omega
          rw [Nat.mod_eq_of_lt hlt] at hfs hfrseq
          have ihh := ih (fun o ho => hops o (List.mem_cons_of_mem op ho))
            (by rw [hfs]; omega) hrun
          rw [hfs] at ihh
          obtain ⟨ihmap, ihfs⟩ := ihh
          constructor
          · simp only [List.map_cons, List.length_cons, List.range'_succ]
            rw [hfrseq, ihmap]
          · simp only [List.length_cons]
            rw [ihfs]
            omega

/-! ## Concrete fixtures -/

/-- The device path of the initially opened camera. -/
def video0 : String := "/dev/video0"

/-- The device path of a second camera. -/
def video1 : String := "/dev/video1"

/-- A concrete driver failure message. -/
def boomMsg : String := "boom"

/-- A concrete transient capture failure message. -/
def transientMsg : String := "transient"

/-- A concrete capability set: MJPG at 1280x720 only. -/
def capsMJPG : CameraCapabilities :=
  { formats := [{ format := PixelFormat.MJPG, resolutions := [{ width := 1280, height := 720 }] }] }

/-- The configuration MJPG 1280x720 at 30 fps. -/
def cfgMJPG : CaptureConfig :=
  { format := PixelFormat.MJPG, resolution := { width := 1280, height := 720 }, fps := 30 }

/-- A concrete actor currently streaming MJPG 1280x720. -/
def streamingActor : CameraActor :=
  { camera := 0
    name := "/dev/video0"
    state := CameraState.Streaming
    capabilities := some capsMJPG
    config := some cfgMJPG
    frame_sequence := 5 }

/-- A concrete idle actor with capabilities discovered but nothing configured. -/
def idleWithCaps : CameraActor :=
  { freshActor 0 video0 with capabilities := some capsMJPG }

/-- A driver oracle whose every call succeeds. -/
def drvAllOk : DriverOutcome :=
  { stopResult := Except.ok ()
    openResult := Except.ok 7
    startResult := Except.ok ()
    captureResult := Except.ok { format := mjpgTag, resolution := (1280, 720), data := [1, 2] }
    formatsResult := [Except.ok (mjpgTag, Except.ok (ResolutionInfo.Discretes [(1280, 720)]))]
    now := 42 }

/-- A driver oracle whose capture call fails and the rest succeed. -/
def drvCaptureFail : DriverOutcome :=
  { drvAllOk with captureResult := Except.error boomMsg }

/-! ## Claim theorems -/

/-- C1 (code evaluation at the failing input): with the actor `Streaming` and
the driver `stop` succeeding, the loop publishes exactly one
`StreamingStopped` event — but the resulting actor state is still
`Streaming`, not `Configured`: `CameraActor::stop_streaming` returns `Ok(())`
without ever assigning `self.state = CameraState::Configured`. -/
theorem stop_streaming_keeps_state_streaming :
    handle_command streamingActor CameraCommand.StopStreaming drvAllOk
      = PanicOr.value (streamingActor, [CameraEvent.StreamingStopped], false)
    ∧ streamingActor.state = CameraState.Streaming
    ∧ stop_streaming streamingActor (Except.ok ()) = (streamingActor, Except.ok ()) :=
  ⟨rfl, rfl, rfl⟩

/-- C2 (code evaluation at the failing input): a `SetConfiguration` received
while the actor is `Streaming` is not rejected: `set_configuration` checks no
state at all, so with the requested mode listed in the capabilities it
succeeds, stores the new config and moves the state to `Configured` while the
driver stays armed. -/
theorem set_configuration_while_streaming_accepted :
    streamingActor.state = CameraState.Streaming
    ∧ set_configuration streamingActor 1280 720 30 PixelFormat.MJPG
        = ({ streamingActor with config := some cfgMJPG, state := CameraState.Configured },
            Except.ok ()) :=
  ⟨rfl, rfl⟩

/-- C3 counterexample: one loop iteration with the actor `Streaming`, no
pending command and a failing driver capture publishes no event at all — in
particular no `Error` event, refuting the claim at this concrete input. -/
theorem capture_error_emits_no_event :
    streamingActor.state = CameraState.Streaming
    ∧ drvCaptureFail.captureResult = Except.error boomMsg
    ∧ loop_iter streamingActor none drvCaptureFail
        = PanicOr.value (streamingActor, [], false) :=
  ⟨rfl, rfl, rfl⟩

/-- C3 amended: in a loop iteration where the state is `Streaming` and the
driver capture fails, the iteration publishes no event whatsoever (the
source's `if let Ok(frame)` silently discards the error), the actor is
unchanged — state still `Streaming`, frame counter untouched — and the loop
continues, so capture is attempted again on the next iteration. -/
theorem capture_failure_silent (a : CameraActor) (drv : DriverOutcome) (e : String)
    (hs : a.state = CameraState.Streaming) (hc : drv.captureResult = Except.error e) :
    loop_iter a none drv = PanicOr.value (a, [], false) := by
  unfold loop_iter
  dsimp only
  rw [if_neg Bool.false_ne_true, if_pos hs]
  unfold capture_frame
  rw [hc, if_neg (not_not_intro hs)]

/-- Witness for C3's amended theorem at the concrete streaming actor and the
concrete failing driver. -/
theorem capture_failure_silent_witness :
    streamingActor.state = CameraState.Streaming
    ∧ drvCaptureFail.captureResult = Except.error boomMsg
    ∧ loop_iter streamingActor none drvCaptureFail
        = PanicOr.value (streamingActor, [], false) :=
  ⟨rfl, rfl, capture_failure_silent streamingActor drvCaptureFail boomMsg rfl rfl⟩

/-- C4 counterexample: with the actor `Streaming` and the driver `stop`
failing, `set_interface` returns the driver's error and the handle swap does
not complete — the actor keeps the old handle, old name and stays
`Streaming`, refuting the claim at this concrete input. -/
theorem set_interface_stop_error_aborts :
    streamingActor.state = CameraState.Streaming
    ∧ set_interface streamingActor video1 (Except.error boomMsg) (Except.ok 7)
        = (streamingActor,
            Except.error (CameraError.IoError ("Failed to stop camera: " ++ boomMsg))) :=
  ⟨rfl, rfl⟩

/-- C4 amended: when the involved driver calls succeed, `set_interface`
installs the new handle with state `Idle`, capabilities absent and the frame
counter reset to 0, from every prior state (streaming included); but a driver
error during the forced stop of a streaming actor aborts the interface
change: the error is returned and the actor, old handle included, is
unchanged. -/
theorem set_interface_amended (a : CameraActor) (p : String) (hnd : Nat) :
    (set_interface a p (Except.ok ()) (Except.ok hnd)
      = ({ a with camera := hnd, name := p, state := CameraState.Idle, capabilities := none, frame_sequence := 0 },
          Except.ok ()))
    ∧ (∀ e, a.state = CameraState.Streaming →
        set_interface a p (Except.error e) (Except.ok hnd)
          = (a, Except.error (CameraError.IoError ("Failed to stop camera: " ++ e)))) := by
  constructor
  · unfold set_interface
    by_cases hs : a.state = CameraState.Streaming
    · rw [if_pos hs]
      unfold stop_streaming
      rw [if_pos hs]
    · rw [if_neg hs]
  · intro e hs
    unfold set_interface stop_streaming
    rw [if_pos hs, if_pos hs]

/-- Witness for C4's amended theorem: both branches at the concrete streaming
actor. -/
theorem set_interface_amended_witness :
    streamingActor.state = CameraState.Streaming
    ∧ set_interface streamingActor video1 (Except.error boomMsg) (Except.ok 7)
        = (streamingActor,
            Except.error (CameraError.IoError ("Failed to stop camera: " ++ boomMsg)))
    ∧ set_interface streamingActor video1 (Except.ok ()) (Except.ok 7)
        = ({ streamingActor with camera := 7, name := "/dev/video1", state := CameraState.Idle, capabilities := none, frame_sequence := 0 },
            Except.ok ()) :=
  ⟨rfl, (set_interface_amended streamingActor video1 7).2 boomMsg rfl,
    (set_interface_amended streamingActor video1 7).1⟩

/-- C5 (code evaluation at the failing input): from a fresh actor, discover
capabilities, configure successfully, then change the interface successfully.
The resulting reachable state is `Idle` yet the stored config is still
present: `set_interface` clears capabilities and the frame counter but never
clears `config`, so the claimed iff-invariant is not preserved. -/
theorem interface_change_keeps_stale_config :
    ∃ a1, runOps (freshActor 0 video0)
        [ActorOp.opDiscover [Except.ok (mjpgTag, Except.ok (ResolutionInfo.Discretes [(1280, 720)]))],
         ActorOp.opSetConfiguration 1280 720 30 PixelFormat.MJPG,
         ActorOp.opSetInterface video1 (Except.ok ()) (Except.ok 1)]
      = PanicOr.value (a1, [])
    ∧ a1.state = CameraState.Idle
    ∧ a1.config = some cfgMJPG :=
  ⟨_, rfl, rfl, rfl⟩

/-- C6 (amended with the usize wrap bound): over any operation sequence on a
fresh actor that contains no interface change and captures fewer than
`2 ^ 64` frames, the captured frames carry the sequence numbers 1, 2, 3, … in
capture order: starting at 1, advancing by exactly 1 per successful capture,
never repeating; stop/start cycles inside the trace do not reset the counter.
Beyond `2 ^ 64` successful captures the release-build `usize` increment wraps
and sequence numbers do repeat — see the counterexample below. -/
theorem frame_sequence_trace (hnd : Nat) (p : String) (ops : List ActorOp)
    (a1 : CameraActor) (frames : List Frame)
    (hops : ∀ op ∈ ops, isInterfaceChange op = false)
    (hlen : frames.length < USIZE_MOD)
    (hrun : runOps (freshActor hnd p) ops = PanicOr.value (a1, frames)) :
    frames.map Frame.sequence = List.range' 1 frames.length := by
  have h := runOps_frame_sequence hops (by simpa [freshActor] using hlen) hrun
  simpa [freshActor] using h.1

/-- A concrete trace for C6: discover, configure, start, two successful
captures, one failed capture, one more successful capture. -/
def demoOps : List ActorOp :=
  [ActorOp.opDiscover [Except.ok (mjpgTag, Except.ok (ResolutionInfo.Discretes [(1280, 720)]))],
   ActorOp.opSetConfiguration 1280 720 30 PixelFormat.MJPG,
   ActorOp.opStartStreaming (Except.ok ()),
   ActorOp.opCaptureFrame (Except.ok { format := mjpgTag, resolution := (1280, 720), data := [1] }) 10,
   ActorOp.opCaptureFrame (Except.ok { format := mjpgTag, resolution := (1280, 720), data := [2] }) 11,
   ActorOp.opCaptureFrame (Except.error transientMsg) 12,
   ActorOp.opCaptureFrame (Except.ok { format := mjpgTag, resolution := (1280, 720), data := [3] }) 13]

/-- The frames `demoOps` produces. -/
def demoFrames : List Frame :=
  [{ format := PixelFormat.MJPG, width := 1280, height := 720, timestamp := 10, sequence := 1, data := [1] },
   { format := PixelFormat.MJPG, width := 1280, height := 720, timestamp := 11, sequence := 2, data := [2] },
   { format := PixelFormat.MJPG, width := 1280, height := 720, timestamp := 13, sequence := 3, data := [3] }]

/-- Witness for C6 on the concrete trace `demoOps`, whose three captures stay
far below the wrap bound. -/
theorem frame_sequence_trace_witness :
    (∀ op ∈ demoOps, isInterfaceChange op = false)
    ∧ (∃ a1, runOps (freshActor 0 video0) demoOps = PanicOr.value (a1, demoFrames))
    ∧ demoFrames.length < USIZE_MOD
    ∧ demoFrames.map Frame.sequence = List.range' 1 demoFrames.length := by
  obtain ⟨a1, hrun⟩ :
      ∃ a1, runOps (freshActor 0 video0) demoOps
        = PanicOr.value (a1, demoFrames) := ⟨_, rfl⟩
  exact ⟨by decide, ⟨a1, hrun⟩, by decide,
    frame_sequence_trace 0 video0 demoOps a1 demoFrames (by decide) (by decide) hrun⟩

/-- Evaluation of one successful capture operation on a streaming actor. -/
theorem applyOp_capture_ok (a : CameraActor) (dc : RawFrame) (t : Nat)
    (hs : a.state = CameraState.Streaming) :
    applyOp a (ActorOp.opCaptureFrame (Except.ok dc) t)
      = PanicOr.value ({ a with frame_sequence := (a.frame_sequence + 1) % USIZE_MOD },
          some { format := PixelFormat.from_fourcc dc.format
                 width := dc.resolution.1
                 height := dc.resolution.2
                 timestamp := t
                 sequence := (a.frame_sequence + 1) % USIZE_MOD
                 data := dc.data }) := by
  simp only [applyOp]
  unfold capture_frame
  rw [if_neg (not_not_intro hs)]

/-- `runOps` runs an appended trace by running the two parts in order. -/
theorem runOps_append (l1 l2 : List ActorOp) :
    ∀ {a a1 a2 : CameraActor} {f1 f2 : List Frame},
    runOps a l1 = PanicOr.value (a1, f1) →
    runOps a1 l2 = PanicOr.value (a2, f2) →
    runOps a (l1 ++ l2) = PanicOr.value (a2, f1 ++ f2) := by
  induction l1 with
  | nil =>
    intro a a1 a2 f1 f2 h1 h2
    simp only [runOps, PanicOr.value.injEq, Prod.mk.injEq] at h1
    obtain ⟨hx, hy⟩ := h1
    subst hx
    subst hy
    simpa using h2
  | cons op l1 ih =>
    intro a a1 a2 f1 f2 h1 h2
    simp only [runOps] at h1
    simp only [List.cons_append, runOps]
    cases hap : applyOp a op with
    | panicked =>
      rw [hap] at h1
      exact (PanicOr.noConfusion h1)
    | value pr =>
      obtain ⟨a0, f⟩ := pr
      rw [hap] at h1
      dsimp only at h1
      dsimp only
      cases hrun : runOps a0 l1 with
      | panicked =>
        rw [hrun] at h1
        exact (PanicOr.noConfusion h1)
      | value pr2 =>
        obtain ⟨a1x, f1x⟩ := pr2
        rw [hrun] at h1
        simp only [PanicOr.value.injEq, Prod.mk.injEq] at h1
        obtain ⟨hx, hy⟩ := h1
        subst hx
        subst hy
        simp only [List.append_eq]
        rw [ih hrun h2]
        simp

/-- Lists of consecutive numbers reduced modulo `m` depend only on the
starting point's residue. -/
theorem range'_map_mod (m : Nat) :
    ∀ (n s1 s2 : Nat), s1 % m = s2 % m →
    (List.range' s1 n).map (fun k => k % m) = (List.range' s2 n).map (fun k => k % m)
  | 0, s1, s2, _ => rfl
  | n + 1, s1, s2, h => by
    simp only [List.range'_succ, List.map_cons]
    rw [h, range'_map_mod m n (s1 + 1) (s2 + 1)
      (by rw [Nat.add_mod, h, ← Nat.add_mod])]

/-- Running `n` consecutive successful captures from a streaming actor yields
`n` frames whose sequence numbers are the consecutive counter values reduced
modulo the usize bound. -/
theorem runOps_replicate_capture (dc : RawFrame) (t : Nat) :
    ∀ (n : Nat) (a : CameraActor), a.state = CameraState.Streaming →
    ∃ a1 frames,
      runOps a (List.replicate n (ActorOp.opCaptureFrame (Except.ok dc) t))
        = PanicOr.value (a1, frames)
      ∧ frames.map Frame.sequence
          = (List.range' (a.frame_sequence + 1) n).map (fun k => k % USIZE_MOD)
  | 0, a, hs => ⟨a, [], rfl, rfl⟩
  | n + 1, a, hs => by
    obtain ⟨a1, frames, hrun, hmap⟩ :=
      runOps_replicate_capture dc t n
        { a with frame_sequence := (a.frame_sequence + 1) % USIZE_MOD } hs
    refine ⟨a1,
      { format := PixelFormat.from_fourcc dc.format
        width := dc.resolution.1
        height := dc.resolution.2
        timestamp := t
        sequence := (a.frame_sequence + 1) % USIZE_MOD
        data := dc.data } :: frames, ?_, ?_⟩
    · simp only [List.replicate_succ, runOps]
      rw [applyOp_capture_ok a dc t hs]
      dsimp only
      rw [hrun]
      rfl
    · simp only [List.map_cons, List.range'_succ]
      rw [hmap]
      dsimp only
      rw [range'_map_mod USIZE_MOD n ((a.frame_sequence + 1) % USIZE_MOD + 1)
        (a.frame_sequence + 1 + 1) (Nat.mod_add_mod _ _ _)]

/-- The raw frame used by the wrap-around trace. -/
def rawMJPG : RawFrame := { format := mjpgTag, resolution := (1280, 720), data := [0] }

/-- A prefix bringing a fresh actor to `Streaming` with counter 0: discover,
configure, start. -/
def wrapPrefixOps : List ActorOp :=
  [ActorOp.opDiscover [Except.ok (mjpgTag, Except.ok (ResolutionInfo.Discretes [(1280, 720)]))],
   ActorOp.opSetConfiguration 1280 720 30 PixelFormat.MJPG,
   ActorOp.opStartStreaming (Except.ok ())]

/-- The streaming actor `wrapPrefixOps` produces. -/
def wrapMid : CameraActor :=
  { camera := 0
    name := video0
    state := CameraState.Streaming
    capabilities := some capsMJPG
    config := some cfgMJPG
    frame_sequence := 0 }

/-- A trace with `2 ^ 64 + 1` successful captures after the prefix. -/
def wrapOps : List ActorOp :=
  wrapPrefixOps ++ List.replicate (USIZE_MOD + 1) (ActorOp.opCaptureFrame (Except.ok rawMJPG) 99)

/-- C6 counterexample: a trace on a fresh actor without any interface change
whose successful captures number `2 ^ 64 + 1` assigns a repeated sequence
number — the first and the last captured frames both carry sequence number 1,
because the release-build `usize` increment wraps — refuting the claim that
sequence numbers never repeat within one actor's lifetime. -/
theorem frame_sequence_wraps :
    (∀ op ∈ wrapOps, isInterfaceChange op = false)
    ∧ ∃ a1 frames,
        runOps (freshActor 0 video0) wrapOps = PanicOr.value (a1, frames)
        ∧ (frames.map Frame.sequence)[0]? = some 1
        ∧ (frames.map Frame.sequence)[USIZE_MOD]? = some 1 := by
  constructor
  · intro op hop
    simp only [wrapOps] at hop
    rcases List.mem_append.mp hop with hpre | hrep
    · have hall : ∀ o ∈ wrapPrefixOps, isInterfaceChange o = false := by decide
      exact hall op hpre
    · rw [List.eq_of_mem_replicate hrep]
      rfl
  · have hpre : runOps (freshActor 0 video0) wrapPrefixOps
        = PanicOr.value (wrapMid, []) := rfl
    obtain ⟨a1, frames, hrun, hmap⟩ :=
      runOps_replicate_capture rawMJPG 99 (USIZE_MOD + 1) wrapMid rfl
    refine ⟨a1, frames, ?_, ?_, ?_⟩
    · have h := runOps_append wrapPrefixOps _ hpre hrun
      simpa [wrapOps] using h
    · rw [hmap, List.getElem?_map,
        List.getElem?_range' _ _ (Nat.succ_pos USIZE_MOD)]
      decide
    · rw [hmap, List.getElem?_map,
        List.getElem?_range' _ _ (Nat.lt_succ_self USIZE_MOD)]
      decide

/-- C7: for every reachable actor: configuring before any discovery yields
`CapabilitiesNotDiscovered` and the state is (and stays) `Idle`; a format
absent from the discovered capabilities yields `UnsupportedFormat`; a present
format without the requested resolution under it yields
`UnsupportedResolution`; and every failing `set_configuration` leaves the
actor — state and stored config included — unchanged. -/
theorem set_configuration_failure_modes (a : CameraActor) (ha : Reachable a)
    (w ht fps : Nat) (fmt : PixelFormat) :
    (a.capabilities = none →
      set_configuration a w ht fps fmt
        = (a, Except.error CameraError.CapabilitiesNotDiscovered)
      ∧ a.state = CameraState.Idle)
    ∧ (∀ caps, a.capabilities = some caps →
        (∀ fc ∈ caps.formats, fc.format ≠ fmt) →
        set_configuration a w ht fps fmt
          = (a, Except.error (CameraError.UnsupportedFormat fmt)))
    ∧ (∀ caps, a.capabilities = some caps →
        (∃ fc ∈ caps.formats, fc.format = fmt) →
        (∀ fc ∈ caps.formats, fc.format = fmt →
          ∀ r ∈ fc.resolutions, ¬(r.width = w ∧ r.height = ht)) →
        set_configuration a w ht fps fmt
          = (a, Except.error (CameraError.UnsupportedResolution w ht fmt)))
    ∧ (∀ e, (set_configuration a w ht fps fmt).2 = Except.error e →
        (set_configuration a w ht fps fmt).1 = a) := by
  refine ⟨?_, ?_, ?_, ?_⟩
  · intro hnone
    constructor
    · unfold set_configuration
      rw [hnone]
    · exact (reachable_inv ha).2 hnone
  · intro caps hsome hall
    unfold set_configuration
    rw [hsome]
    dsimp only
    have hfind : caps.formats.find? (fun cap => decide (cap.format = fmt)) = none := by
      rw [List.find?_eq_none]
      intro x hx
      simp only [decide_eq_true_eq]
      exact hall x hx
    rw [hfind]
  · intro caps hsome hex hall
    unfold set_configuration
    rw [hsome]
    dsimp only
    have hex2 : (caps.formats.find? (fun cap => decide (cap.format = fmt))).isSome := by
      rw [List.find?_isSome]
      obtain ⟨fc, hfc, hfmt⟩ := hex
      exact ⟨fc, hfc, by simp [hfmt]⟩
    obtain ⟨fc0, hfc0⟩ := Option.isSome_iff_exists.mp hex2
    rw [hfc0]
    dsimp only
    have hmem := List.mem_of_find?_eq_some hfc0
    have hfmt0 : fc0.format = fmt := by
      have := List.find?_some hfc0
      simpa using this
    have hres : fc0.resolutions.find?
        (fun res => decide (res.width = w) && decide (res.height = ht)) = none := by
      rw [List.find?_eq_none]
      intro r hr
      simp only [Bool.and_eq_true, decide_eq_true_eq]
      rintro ⟨h1, h2⟩
      exact hall fc0 hmem hfmt0 r hr ⟨h1, h2⟩
    rw [hres]
  · intro e he
    rcases set_configuration_cases a w ht fps fmt with ⟨hfst, -⟩ | ⟨caps, r, -, -, hsnd, -, -⟩
    · exact hfst
    · rw [hsnd] at he
      exact (Except.noConfusion he)

/-- Witness for C7 at a fresh (hence reachable) actor: configuring before
discovery fails with `CapabilitiesNotDiscovered` from state `Idle`. -/
theorem set_configuration_failure_modes_witness :
    set_configuration (freshActor 0 video0) 1280 720 30 PixelFormat.MJPG
      = (freshActor 0 video0, Except.error CameraError.CapabilitiesNotDiscovered)
    ∧ (freshActor 0 video0).state = CameraState.Idle := by
  have h := (set_configuration_failure_modes (freshActor 0 video0)
    (Reachable.fresh 0 video0) 1280 720 30 PixelFormat.MJPG).1 rfl
  exact ⟨h.1, h.2⟩

/-- C8: whenever `set_configuration` succeeds for the submitted
(width, height, fps, format), the post-state is `Configured` and
`get_configuration` returns exactly the submitted format, resolution and
fps. -/
theorem set_configuration_success (a a1 : CameraActor) (w ht fps : Nat) (fmt : PixelFormat)
    (hok : set_configuration a w ht fps fmt = (a1, Except.ok ())) :
    a1.state = CameraState.Configured
    ∧ get_configuration a1
        = PanicOr.value (Except.ok
            { format := fmt, resolution := { width := w, height := ht }, fps := fps }) := by
  have h1 : (set_configuration a w ht fps fmt).1 = a1 := by rw [hok]
  have h2 : (set_configuration a w ht fps fmt).2 = Except.ok () := by rw [hok]
  rcases set_configuration_cases a w ht fps fmt with ⟨-, e, hsnd⟩ | ⟨caps, r, -, hfst, -, hw, hh⟩
  · rw [h2] at hsnd
    exact (Except.noConfusion hsnd)
  · rw [h1] at hfst
    subst hfst
    subst hw
    subst hh
    exact ⟨rfl, rfl⟩

/-- Witness for C8: configure the idle-with-capabilities actor with
MJPG 1280x720 at 30 fps. -/
theorem set_configuration_success_witness :
    ∃ a1, set_configuration idleWithCaps 1280 720 30 PixelFormat.MJPG = (a1, Except.ok ())
      ∧ a1.state = CameraState.Configured
      ∧ get_configuration a1 = PanicOr.value (Except.ok cfgMJPG) := by
  obtain ⟨a1, hok⟩ :
      ∃ a1, set_configuration idleWithCaps 1280 720 30 PixelFormat.MJPG
        = (a1, Except.ok ()) := ⟨_, rfl⟩
  have h := set_configuration_success idleWithCaps a1 1280 720 30 PixelFormat.MJPG hok
  exact ⟨a1, hok, h.1, h.2⟩

/-- C10: in every reachable actor state, `Configured` or `Streaming` implies
the stored config is present, hence neither the `unwrap` inside
`get_configuration` nor the one inside `start_streaming` can panic. -/
theorem no_unwrap_panic (a : CameraActor) (ha : Reachable a) :
    ((a.state = CameraState.Configured ∨ a.state = CameraState.Streaming) →
      a.config.isSome = true)
    ∧ get_configuration a ≠ PanicOr.panicked
    ∧ ∀ ds, start_streaming a ds ≠ PanicOr.panicked := by
  have hinv := reachable_inv ha
  refine ⟨hinv.1, ?_, ?_⟩
  · rcases get_configuration_cases a with ⟨hnone, hcs, hpan⟩ | ⟨cfg, -, -, hval⟩ | ⟨-, hval⟩
    · exfalso
      have h := hinv.1 hcs
      rw [hnone] at h
      exact (Bool.noConfusion h)
    · rw [hval]
      exact fun hx => PanicOr.noConfusion hx
    · rw [hval]
      exact fun hx => PanicOr.noConfusion hx
  · intro ds
    rcases start_streaming_cases a ds with ⟨hpan, hconf, hnone⟩ | ⟨e, hval⟩ | ⟨-, hval⟩
    · exfalso
      have h := hinv.1 (Or.inl hconf)
      rw [hnone] at h
      exact (Bool.noConfusion h)
    · rw [hval]
      exact fun hx => PanicOr.noConfusion hx
    · rw [hval]
      exact fun hx => PanicOr.noConfusion hx

/-- Witness for C10 at the fresh (reachable) actor. -/
theorem no_unwrap_panic_witness :
    get_configuration (freshActor 0 video0) ≠ PanicOr.panicked
    ∧ start_streaming (freshActor 0 video0) (Except.ok ()) ≠ PanicOr.panicked := by
  have h := no_unwrap_panic (freshActor 0 video0) (Reachable.fresh 0 video0)
  exact ⟨h.2.1, h.2.2 (Except.ok ())⟩

end VideoStream
